import Mathlib

/-!
Verification of the voicebot text-understanding and response-resolution
pipeline (`src/ai_server.py` and `src/ai_server_2.py`).

The development shallowly embeds the Python sources:
- strings are Lean `String`/`List Char` (ASCII fragment; the claims only
  exercise ASCII input, so `str.lower`, `\w`, `\s`, `str.strip` are modelled
  on their ASCII behaviour);
- numbers flowing through the arithmetic evaluator are modelled as `ℚ`,
  an exact-arithmetic idealization: Python evaluates `+ - *` on `int`
  exactly (arbitrary precision), but `/` is float true division and
  decimal literals are floats, both computed in IEEE-754 binary floating
  point with rounding (`0.1 + 0.2` is `0.30000000000000004` in the
  program, not `3/10`).  Floating-point rounding is NOT modelled here; the
  idealization coincides with the program exactly on computations that
  stay in integers, and division by zero raises in both (Python's
  `ZeroDivisionError`), so no infinity/NaN arises.  Statements about the
  exact numeric value of results therefore hold of the idealization, not
  of the program's float arithmetic;
- fallible Python code (exceptions) is modelled with `Except`;
- the external collaborators (the generative backend `ollama.chat`, the
  wall clock `datetime.now()`) are oracle parameters.
-/

namespace Voicebot

/-- Decidable equality for `Except` results, so concrete evaluations can be
compared. -/
instance {ε α : Type} [DecidableEq ε] [DecidableEq α] : DecidableEq (Except ε α) := fun a b =>
  match a, b with
  | .ok x, .ok y =>
    match decEq x y with
    | isTrue h => isTrue (by rw [h])
    | isFalse h => isFalse (by intro hc; cases hc; exact h rfl)
  | .error x, .error y =>
    match decEq x y with
    | isTrue h => isTrue (by rw [h])
    | isFalse h => isFalse (by intro hc; cases hc; exact h rfl)
  | .ok _, .error _ => isFalse (by intro hc; cases hc)
  | .error _, .ok _ => isFalse (by intro hc; cases hc)

/-! ## Models of the Python string primitives used by the servers -/

/-- Python whitespace for `str.strip` / regex `\s` (ASCII fragment). -/
def isPySpace (c : Char) : Bool :=
  c = ' ' || c = '\t' || c = '\n' || c = '\r' || c = '\x0b' || c = '\x0c'

/-- Python regex `\w` (ASCII fragment): alphanumerics and underscore. -/
def isPyWord (c : Char) : Bool := c.isAlphanum || c = '_'

/-- `str.lower` (ASCII fragment). -/
def pyLower (s : String) : String := ⟨s.data.map Char.toLower⟩

/-- Drop leading Python whitespace. -/
def trimL (l : List Char) : List Char := l.dropWhile isPySpace

/-- `str.strip()` on a character list: drop leading whitespace, then drop
trailing whitespace (implemented by reversing). -/
def pyStripL (l : List Char) : List Char := ((trimL l).reverse.dropWhile isPySpace).reverse

/-- `str.strip()`. -/
def pyStrip (s : String) : String := ⟨pyStripL s.data⟩

/-- If `pat` is a prefix of `l`, return the rest of `l`, else `none`. -/
def matchHead : List Char → List Char → Option (List Char)
  | [], l => some l
  | _ :: _, [] => none
  | p :: ps, c :: cs => if p = c then matchHead ps cs else none

/-! ## The safe math engine (`safe_eval` and its helpers)

`safe_eval(expr)` runs `ast.parse(expr, mode="eval")` and then walks the
resulting tree with the inner function `_eval`, which accepts only numeric
literals (`ast.Num`) and binary operations whose operator type is a key of
`ALLOWED_OPS` (`Add`, `Sub`, `Mult`, `Div`); everything else raises.

We embed the tree language of Python's expression parser as `PyExpr`.  The
node kinds `name`, `call`, `attr`, `unaryOp` and `otherNode` represent
identifiers, function calls, attribute access, unary operations and every
remaining expression kind that `ast.parse` can produce; `_eval` raises on
all of these before inspecting their children, so `call` keeps only its
callee subterm and `otherNode` keeps no payload. -/

/-- Binary operator kinds of Python's `ast.BinOp`.  `ALLOWED_OPS` contains
exactly `add`, `sub`, `mult`, `div`; `pow` is `**`, and `otherBin` stands
for the remaining kinds (`Mod`, `FloorDiv`, `LShift`, ...). -/
inductive PyBinOp
  | add | sub | mult | div | pow | otherBin
  deriving DecidableEq, Repr

/-- Unary operator kinds of Python's `ast.UnaryOp` (`+x`, `-x`, `~x`, `not x`). -/
inductive PyUnary
  | uAdd | uSub | uOther
  deriving DecidableEq, Repr

/-- Expression trees produced by `ast.parse(·, mode="eval")`, as far as
`safe_eval`'s `_eval` distinguishes them. -/
inductive PyExpr
  | num (q : ℚ)
  | binOp (op : PyBinOp) (l r : PyExpr)
  | unaryOp (op : PyUnary) (e : PyExpr)
  | name (id : String)
  | call (callee : PyExpr)
  | attr (obj : PyExpr) (field : String)
  | otherNode
  deriving DecidableEq, Repr

/-- Errors of the math engine.  `parseError` models `SyntaxError` from
`ast.parse`; `invalidOperator` and `invalidExpression` model the two
`ValueError`s raised by `_eval`; `divisionByZero` models
`ZeroDivisionError` from `operator.truediv`. -/
inductive EvalErr
  | parseError | invalidOperator | invalidExpression | divisionByZero
  deriving DecidableEq, Repr

/-- Membership test `type(node.op) in ALLOWED_OPS`. -/
def allowedOp : PyBinOp → Bool
  | .add | .sub | .mult | .div => true
  | _ => false

/-- The inner `_eval` of `safe_eval`: numeric literals evaluate to
themselves; a `BinOp` first checks its operator against `ALLOWED_OPS`
(raising `ValueError("Invalid operator")` otherwise), then evaluates the
left child, then the right child, then applies the operator
(`operator.truediv` raises `ZeroDivisionError` on a zero divisor); every
other node raises `ValueError("Invalid expression")`. -/
def evalNode : PyExpr → Except EvalErr ℚ
  | .num q => .ok q
  | .binOp op l r =>
    if allowedOp op then
      match evalNode l with
      | .error e => .error e
      | .ok a =>
        match evalNode r with
        | .error e => .error e
        | .ok b =>
          match op with
          | .add => .ok (a + b)
          | .sub => .ok (a - b)
          | .mult => .ok (a * b)
          | .div => if b = 0 then .error .divisionByZero else .ok (a / b)
          | _ => .error .invalidOperator
    else .error .invalidOperator
  | _ => .error .invalidExpression

/-! ### The parser fragment

`try_math` hands `safe_eval` only strings that survived
`re.sub(r"[^\d+\-*/. ]", "", t)`, i.e. strings over digits, `+ - * / .`
and space.  On that alphabet Python's expression grammar accepts exactly:
numeric literals (digits with at most one dot, at least one digit, and —
for dotless integer literals — no leading zero unless all digits are
zero), the four infix operators with the standard precedence (`* /` over
`+ -`) and left-to-right associativity, and whitespace between tokens.
The remaining constructs reachable on this alphabet (unary `+`/`-`, `**`,
`//`, adjacent literals, malformed literals such as `1..2` or `012`) are
rejected by `_eval` or by the grammar in Python, and by the parser below
at parse time: on every such string both sides produce an error, and on
every string Python accepts and evaluates, the tree below is exactly
Python's tree (with literal values read exactly rather than rounded to
binary floating point — see the file header).  `tokenize`/`parsePyExpr`
embed `ast.parse(·, mode="eval")` on this fragment. -/

/-- Token stream of the arithmetic fragment. -/
inductive Tok
  | num (q : ℚ)
  | plus | minus | star | slash
  deriving DecidableEq, Repr

/-- Characters forming a numeric literal. -/
def isNumChar (c : Char) : Bool := c.isDigit || c = '.'

/-- Value of a digit run, most significant first. -/
def digitsVal (l : List Char) : ℕ := l.foldl (fun n c => 10 * n + (c.toNat - 48)) 0

/-- Python 3 forbids leading zeros in decimal integer literals: `012` is a
`SyntaxError`, while `0` and `00` (all zeros) are valid, and float literals
may have leading zeros (`012.5`, `00.5` are valid).  A dotless run is a
valid integer literal iff it is all zeros or does not start with `0`. -/
def intLitOk (run : List Char) : Bool :=
  run.contains '.' || run.all (· == '0') ||
    (match run with
     | '0' :: _ => false
     | _ => true)

/-- Value of a maximal digits-and-dots run: valid iff it has at most one
dot, at least one digit, and respects the leading-zero rule (Python
accepts `5.`, `.5`, `0`, `00`, `012.5`; rejects `.`, `1..2` and `012`). -/
def lexNum (run : List Char) : Option ℚ :=
  if run.count '.' ≤ 1 ∧ run.any (·.isDigit) ∧ intLitOk run then
    let ip := run.takeWhile (· ≠ '.')
    let fp := (run.dropWhile (· ≠ '.')).drop 1
    some ((digitsVal ip : ℚ) + (digitsVal fp : ℚ) / (10 : ℚ) ^ fp.length)
  else none

/-- Fuelled tokenizer over the cleaned alphabet; the fuel (`length + 1`) is
always sufficient, the `0` case is unreachable. -/
def tokenizeAux : ℕ → List Char → Except EvalErr (List Tok)
  | _, [] => .ok []
  | 0, _ :: _ => .error .parseError
  | fuel + 1, c :: cs =>
    if c = ' ' then tokenizeAux fuel cs
    else if c = '+' then
      match tokenizeAux fuel cs with
      | .ok ts => .ok (.plus :: ts)
      | .error e => .error e
    else if c = '-' then
      match tokenizeAux fuel cs with
      | .ok ts => .ok (.minus :: ts)
      | .error e => .error e
    else if c = '*' then
      match tokenizeAux fuel cs with
      | .ok ts => .ok (.star :: ts)
      | .error e => .error e
    else if c = '/' then
      match tokenizeAux fuel cs with
      | .ok ts => .ok (.slash :: ts)
      | .error e => .error e
    else if isNumChar c then
      match lexNum ((c :: cs).takeWhile isNumChar) with
      | some q =>
        match tokenizeAux fuel ((c :: cs).dropWhile isNumChar) with
        | .ok ts => .ok (.num q :: ts)
        | .error e => .error e
      | none => .error .parseError
    else .error .parseError

/-- Tokenize a cleaned string. -/
def tokenize (s : String) : Except EvalErr (List Tok) :=
  tokenizeAux (s.data.length + 1) s.data

/-- Attach the pending additive context to the current multiplicative run:
`none` means the expression so far is just the run. -/
def closePending : Option (PyExpr × PyBinOp) → PyExpr → PyExpr
  | none, t => t
  | some (e, op), t => .binOp op e t

/-- One-pass precedence parser for the two-level grammar
`expr := term ((+|-) term)*`, `term := num ((*|/) num)*`: `pending` holds
the additive chain parsed so far together with the operator waiting for the
current term, `term` the multiplicative run being extended.  Produces the
same left-associative tree as Python's parser, requiring the whole token
stream to be consumed (`mode="eval"`). -/
def parseGo (pending : Option (PyExpr × PyBinOp)) (term : PyExpr) :
    List Tok → Except EvalErr PyExpr
  | [] => .ok (closePending pending term)
  | .star :: .num q :: rest => parseGo pending (.binOp .mult term (.num q)) rest
  | .slash :: .num q :: rest => parseGo pending (.binOp .div term (.num q)) rest
  | .plus :: .num q :: rest =>
    parseGo (some (closePending pending term, .add)) (.num q) rest
  | .minus :: .num q :: rest =>
    parseGo (some (closePending pending term, .sub)) (.num q) rest
  | _ => .error .parseError

/-- Parse a full token stream into a `PyExpr` (the `ast.parse(·, mode="eval")`
fragment). -/
def parsePyExpr : List Tok → Except EvalErr PyExpr
  | .num q :: rest => parseGo none (.num q) rest
  | _ => .error .parseError

/-- `safe_eval(expr)`: parse, then walk with `_eval` (`evalNode`). -/
def safe_eval (s : String) : Except EvalErr ℚ :=
  match tokenize s with
  | .error e => .error e
  | .ok toks =>
    match parsePyExpr toks with
    | .error e => .error e
    | .ok e => evalNode e

/-! ### Reference evaluator (modelled from the spec)

Modelled from the spec: "parses the cleaned string … using standard
arithmetic precedence (multiplication/division bind tighter than
addition/subtraction), left-to-right associativity for operators of equal
precedence" and "`evaluate` returns the mathematically correct result"
(spec §4.3, §8).  `refGo sum term toks` scans the token stream once from
the left, keeping the value of the completed additive chain in `sum` and
the value of the current (signed) multiplicative run in `term`. -/
def refGo (sum term : ℚ) : List Tok → Except EvalErr ℚ
  | [] => .ok (sum + term)
  | .plus :: .num q :: rest => refGo (sum + term) q rest
  | .minus :: .num q :: rest => refGo (sum + term) (-q) rest
  | .star :: .num q :: rest => refGo sum (term * q) rest
  | .slash :: .num q :: rest =>
    if q = 0 then .error .divisionByZero else refGo sum (term / q) rest
  | _ => .error .parseError

/-- Reference meaning of a token stream (spec-side definition used to state
functional correctness of `safe_eval`). -/
def refEval : List Tok → Except EvalErr ℚ
  | .num q :: rest => refGo 0 q rest
  | _ => .error .parseError

/-! ### Predicates on parser output used to state the safety claims -/

/-- The tree contains an identifier, a function call, or an attribute
access (anywhere, including under other banned nodes). -/
def containsBanned : PyExpr → Bool
  | .name _ => true
  | .call _ => true
  | .attr _ _ => true
  | .binOp _ l r => containsBanned l || containsBanned r
  | .unaryOp _ e => containsBanned e
  | .num _ => false
  | .otherNode => false

/-- The tree is pure whitelisted arithmetic: numeric literals combined by
the four `ALLOWED_OPS` operators, nothing else. -/
def pureArith : PyExpr → Bool
  | .num _ => true
  | .binOp op l r => allowedOp op && pureArith l && pureArith r
  | _ => false

/-- The tree contains a unary minus, an exponentiation, or a variable. -/
def hasUnaryMinusPowOrVar : PyExpr → Bool
  | .unaryOp .uSub _ => true
  | .unaryOp _ e => hasUnaryMinusPowOrVar e
  | .binOp .pow _ _ => true
  | .binOp _ l r => hasUnaryMinusPowOrVar l || hasUnaryMinusPowOrVar r
  | .name _ => true
  | .call f => hasUnaryMinusPowOrVar f
  | .attr o _ => hasUnaryMinusPowOrVar o
  | .num _ => false
  | .otherNode => false

/-! ### Semantic state of the one-pass parser

Infrastructure for proving that the tree built by `parseGo` evaluates to
the same result as the spec-side scan `refGo`: the pair `(sum, term)` of
`refGo` corresponds to the evaluation of the pending additive chain and of
the current (signed) multiplicative run. -/

/-- `parseGo` only ever stores `add` or `sub` in the pending slot. -/
def pendOk : Option (PyExpr × PyBinOp) → Prop
  | none => True
  | some (_, op) => op = .add ∨ op = .sub

/-- The sign with which a pending `add`/`sub` contributes its term. -/
def pendSign : PyBinOp → ℚ
  | .sub => -1
  | _ => 1

/-- Evaluate the parser state `(pending, term)` to the `refGo` state
`(sum, term)`: the pending chain's value, and the current run's signed
value.  Errors surface in the same order as tree evaluation (pending chain
first, current run second). -/
def semState (pending : Option (PyExpr × PyBinOp)) (term : PyExpr) :
    Except EvalErr (ℚ × ℚ) :=
  match pending with
  | none =>
    match evalNode term with
    | .ok t => .ok (0, t)
    | .error e => .error e
  | some (e, op) =>
    match evalNode e with
    | .error er => .error er
    | .ok s =>
      match evalNode term with
      | .error er => .error er
      | .ok t => .ok (s, pendSign op * t)

/-- Run the reference scan from the parser state `(pending, term)`. -/
def semRef (pending : Option (PyExpr × PyBinOp)) (term : PyExpr) (toks : List Tok) :
    Except EvalErr ℚ :=
  match semState pending term with
  | .ok (s, t) => refGo s t toks
  | .error er => .error er

/-! ## Regex and `str.replace` scanners

The servers use `re.sub`, `re.search`, `re.fullmatch` and `str.replace`
with a fixed handful of patterns.  Each pattern is modelled by a dedicated
left-to-right scanner.  A word boundary `\b` next to a pattern whose edge
character is a word character holds exactly when the adjacent text
character is absent or not a word character; all the patterns below have
letters at their `\b` edges. -/

/-- Does a `\b` hold before the current position (`prev` is the previous
character of the original text, `none` at the start)? -/
def leftBoundOk : Option Char → Bool
  | none => true
  | some p => !isPyWord p

/-- Does a `\b` hold after a match ending here (`rest` is the remaining
text)? -/
def rightBoundOk : List Char → Bool
  | [] => true
  | r :: _ => !isPyWord r

/-- Scan every position of the text, keeping the previous character for
boundary tests; `here prev l` decides a match starting at `l`. -/
def scanAux (here : Option Char → List Char → Bool) : Option Char → List Char → Bool
  | prev, [] => here prev []
  | prev, c :: cs => here prev (c :: cs) || scanAux here (some c) cs

/-- `re.search(pat, t)` for a plain substring pattern (no boundaries). -/
def containsSub (pat t : String) : Bool :=
  scanAux (fun _ l => (matchHead pat.data l).isSome) none t.data

/-- `re.search(rf"\b{p}\b", t)` for a literal phrase `p`. -/
def searchWord (p t : String) : Bool :=
  scanAux
    (fun prev l =>
      leftBoundOk prev &&
        match matchHead p.data l with
        | some rest => rightBoundOk rest
        | none => false)
    none t.data

/-- `re.search(r"\b(p₁|p₂|…)\b", t)`: some alternative occurs with
boundaries on both sides. -/
def searchAnyWord (ps : List String) (t : String) : Bool := ps.any (searchWord · t)

/-- A pattern alternative with a `\b` on its left edge only
(`\blocation`, `\bwhat can you do`). -/
def searchLeftWord (p t : String) : Bool :=
  scanAux (fun prev l => leftBoundOk prev && (matchHead p.data l).isSome) none t.data

/-- A pattern alternative with a `\b` on its right edge only
(`address\b`, `help\b`). -/
def searchRightWord (p t : String) : Bool :=
  scanAux
    (fun _ l =>
      match matchHead p.data l with
      | some rest => rightBoundOk rest
      | none => false)
    none t.data

/-- `re.sub(rf"\b{word}\b", rep, ·)` as used by `words_to_numbers`:
replace every boundary-delimited occurrence, scanning left to right and
resuming after each match (the boundary context of later positions is
taken from the original text, whose character before the resume point is
the last character of `word`).  Fuelled; the fuel `length + 1` is always
sufficient, and the `0` case returns the remaining text unchanged. -/
def subWordAux (word rep : List Char) : ℕ → Option Char → List Char → List Char
  | 0, _, l => l
  | _ + 1, _, [] => []
  | fuel + 1, prev, c :: cs =>
    if leftBoundOk prev then
      match matchHead word (c :: cs) with
      | some rest =>
        if rightBoundOk rest then
          rep ++ subWordAux word rep fuel (some (word.getLastD c)) rest
        else c :: subWordAux word rep fuel (some c) cs
      | none => c :: subWordAux word rep fuel (some c) cs
    else c :: subWordAux word rep fuel (some c) cs

/-- `re.sub(rf"\b{word}\b", rep, l)`. -/
def subWord (word rep l : List Char) : List Char :=
  subWordAux word rep (l.length + 1) none l

/-- `str.replace(pat, rep)`: plain global substring replacement, left to
right, resuming after each match.  Fuelled like `subWordAux`. -/
def strReplaceAux (pat rep : List Char) : ℕ → List Char → List Char
  | 0, l => l
  | _ + 1, [] => []
  | fuel + 1, c :: cs =>
    match matchHead pat (c :: cs) with
    | some rest => rep ++ strReplaceAux pat rep fuel rest
    | none => c :: strReplaceAux pat rep fuel cs

/-- `str.replace(pat, rep)`. -/
def strReplace (pat rep l : List Char) : List Char :=
  strReplaceAux pat rep (pat.length + l.length + 1) l

/-- Try to match `(\d)\s*x\s*(\d)` at the current position, returning the
two digits and the text after the match. -/
def tryXMatch : List Char → Option (Char × Char × List Char)
  | [] => none
  | d1 :: rest =>
    if d1.isDigit then
      match rest.dropWhile isPySpace with
      | c :: rest2 =>
        if c = 'x' then
          match rest2.dropWhile isPySpace with
          | d2 :: rest3 => if d2.isDigit then some (d1, d2, rest3) else none
          | [] => none
        else none
      | [] => none
    else none

/-- `re.sub(r"(\d)\s*x\s*(\d)", r"\1*\2", ·)`: collapse an infix `x`
between digits into `*`, scanning left to right and resuming after each
match.  Fuelled like `subWordAux`. -/
def xCollapseAux : ℕ → List Char → List Char
  | 0, l => l
  | _ + 1, [] => []
  | fuel + 1, c :: cs =>
    match tryXMatch (c :: cs) with
    | some (d1, d2, rest) => d1 :: '*' :: d2 :: xCollapseAux fuel rest
    | none => c :: xCollapseAux fuel cs

/-- `re.sub(r"(\d)\s*x\s*(\d)", r"\1*\2", l)`. -/
def xCollapse (l : List Char) : List Char := xCollapseAux (l.length + 1) l

/-! ## The math path (`NUM_WORDS`, `OP_WORDS`, `try_math`) -/

/-- `NUM_WORDS`, in the source's (insertion-ordered) dict order; the
replacement is `str(num)`. -/
def NUM_WORDS : List (String × String) :=
  [("zero", "0"), ("one", "1"), ("two", "2"), ("three", "3"), ("four", "4"),
   ("five", "5"), ("six", "6"), ("seven", "7"), ("eight", "8"), ("nine", "9"),
   ("ten", "10"), ("eleven", "11"), ("twelve", "12")]

/-- `OP_WORDS`, in the source's dict order. -/
def OP_WORDS : List (String × String) :=
  [("plus", "+"), ("minus", "-"), ("into", "*"), ("times", "*"),
   ("multiplied by", "*"), ("divide by", "/"), ("divided by", "/")]

/-- `words_to_numbers`: one boundary-safe `re.sub` per `NUM_WORDS` entry,
in dict order. -/
def words_to_numbers (s : String) : String :=
  ⟨NUM_WORDS.foldl (fun t p => subWord p.1.data p.2.data t) s.data⟩

/-- `words_to_operators`: first the infix-`x` collapse, then one
`str.replace` per `OP_WORDS` entry, in dict order. -/
def words_to_operators (s : String) : String :=
  ⟨OP_WORDS.foldl (fun t p => strReplace p.1.data p.2.data t) (xCollapse s.data)⟩

/-- The gate regex of `try_math`:
`re.search(r"(plus|minus|into|times|multiply|multiplied|divide|divided|\d|x)", t)`. -/
def mathGate (t : String) : Bool :=
  ["plus", "minus", "into", "times", "multiply", "multiplied", "divide", "divided"].any
      (fun w => containsSub w t)
    || t.data.any (·.isDigit) || t.data.contains 'x'

/-- Characters kept by `re.sub(r"[^\d+\-*/. ]", "", t)`: digits, the four
operators, dot and the space character (all other characters, including
tabs and newlines, are deleted). -/
def cleanupKeep (c : Char) : Bool :=
  c.isDigit || c = '+' || c = '-' || c = '*' || c = '/' || c = '.' || c = ' '

/-- `re.sub(r"[^\d+\-*/. ]", "", l)`. -/
def cleanup (l : List Char) : List Char := l.filter cleanupKeep

/-- The sixteen characters that `cleanup` keeps, as an explicit list (used
to transport decidable facts about them). -/
def allowedChars : List Char :=
  ['0', '1', '2', '3', '4', '5', '6', '7', '8', '9', '+', '-', '*', '/', '.', ' ']

/-- The normalization applied by `try_math` after the gate:
number words, then operator words, then character cleanup, then
`.strip()`. -/
def mathClean (t : String) : String :=
  ⟨pyStripL (cleanup (words_to_operators (words_to_numbers t)).data)⟩

/-- The full math-path normalization of `try_math`, lowercasing included. -/
def mathNormalize (s : String) : String := mathClean (pyLower s)

/-- Decimal rendering of a non-integral result.  Python prints the
float's shortest decimal representation; binary floating point is outside
this embedding, so the exact rational is rendered as `num/den`.  No claim
inspects this branch: every reply string a claim mentions has an integral
value. -/
def fracRepr (q : ℚ) : String := toString q.num ++ "/" ++ toString q.den

/-- The result formatting of `try_math`: a float with integral value is
converted to `int` before interpolation, so an integral result prints as
its integer numeral. -/
def displayResult (q : ℚ) : String := if q.den = 1 then toString q.num else fracRepr q

/-! ## Intent normalization and the clock -/

/-- `normalize_intent`: lowercase, `strip()`, then delete every character
that is not `\w` or `\s`. -/
def normalize_intent (text : String) : String :=
  ⟨(pyStripL (pyLower text).data).filter (fun c => isPyWord c || isPySpace c)⟩

/-- The wall clock, modelled by the five `strftime` renderings the intent
rules use (`datetime.now().strftime(...)` for time, date, day, month,
year).  A frozen clock is a fixed value of this structure. -/
structure DateTime where
  timeStr : String
  dateStr : String
  dayStr : String
  monthStr : String
  yearStr : String

/-- `re.fullmatch(r"(hi|hello|hey|namaste)( aarya| ariya)?", t)`. -/
def greetMatch (t : String) : Bool :=
  ["hi", "hello", "hey", "namaste"].any fun b =>
    t == b || t == b ++ " aarya" || t == b ++ " ariya"

/-- Match `re.search(r"\bhello\s+(aarya|arya|aria)\b", t)` at the current
position: `hello` with a left boundary, one or more whitespace characters,
then one of the names with a right boundary (the alternatives all start
with a non-space letter, so the greedy `\s+` is deterministic). -/
def helloNameHere (prev : Option Char) (l : List Char) : Bool :=
  leftBoundOk prev &&
    match matchHead "hello".data l with
    | some rest =>
      match rest with
      | r1 :: _ =>
        isPySpace r1 &&
          (["aarya", "arya", "aria"].any fun nm =>
            match matchHead nm.data (rest.dropWhile isPySpace) with
            | some r2 => rightBoundOk r2
            | none => false)
      | [] => false
    | none => false

/-- `re.search(r"\bhello\s+(aarya|arya|aria)\b", t)`. -/
def searchHelloName (t : String) : Bool := scanAux helloNameHere none t.data

/-- Python exceptions that can escape the `/ask` handler in this model:
`AttributeError` (calling `.get`/`.strip` on a value that lacks it) and a
failure of the generative backend call. -/
inductive PyExc
  | attributeError | backendFailure
  deriving DecidableEq, Repr

/-! ## JSON bodies at the `/ask` endpoint -/

/-- JSON values, as returned by `request.get_json`. -/
inductive JVal
  | jnull
  | jbool (b : Bool)
  | jnum (q : ℚ)
  | jstr (s : String)
  | jarr (elems : List JVal)
  | jobj (fields : List (String × JVal))

/-- Python truthiness of a JSON value (`data or {}`). -/
def pythonTruthy : JVal → Bool
  | .jnull => false
  | .jbool b => b
  | .jnum q => decide (q ≠ 0)
  | .jstr s => s != ""
  | .jarr [] => false
  | .jarr (_ :: _) => true
  | .jobj [] => false
  | .jobj (_ :: _) => true

/-- `dict` key lookup (first binding wins, as after JSON parsing every key
is unique). -/
def lookupField (key : String) : List (String × JVal) → Option JVal
  | [] => none
  | (k, v) :: rest => if k == key then some v else lookupField key rest

/-- `data = request.get_json(silent=True) or {}` followed by
`user_text = data.get("text", "").strip()`.  `body = none` models both an
absent and an unparseable JSON body (`get_json` returns `None`); a falsy
parsed value is replaced by `{}` by `or {}`; `.get` on a non-`dict` value
raises `AttributeError`, as does `.strip()` on a non-`str` field value. -/
def getUserText (body : Option JVal) : Except PyExc String :=
  let data : JVal :=
    match body with
    | none => .jobj []
    | some v => if pythonTruthy v then v else .jobj []
  match data with
  | .jobj fields =>
    match lookupField "text" fields with
    | none => .ok (pyStrip "")
    | some (.jstr s) => .ok (pyStrip s)
    | some _ => .error .attributeError
  | _ => .error .attributeError

/-- Request bodies that reach the handler's `user_text = ""` path without
a `"text"` value: no/unparseable JSON, any falsy JSON value (replaced by
`{}` by `or {}`), or a JSON object without a `"text"` key.  A truthy
non-object body is not benign: `.get` raises `AttributeError` on it. -/
def benignNoText : Option JVal → Bool
  | none => true
  | some v =>
    if pythonTruthy v then
      match v with
      | .jobj fields => (lookupField "text" fields).isNone
      | _ => false
    else true

/-! ## `src/ai_server.py` -/

namespace AiServer

/-- `try_math` of `ai_server.py`: lowercase, gate on the arithmetic-cue
regex, normalize (number words, operator words, cleanup, strip), evaluate
with `safe_eval`; on success format `"The answer is: {result}."` (integral
floats printed as `int`), on any exception return `None`. -/
def try_math (text : String) : Option String :=
  let t := pyLower text
  if mathGate t then
    match safe_eval (mathClean t) with
    | .ok r => some ("The answer is: " ++ displayResult r ++ ".")
    | .error _ => none
  else none

/-- The ordered intent rules of `ai_server.py`'s `local_answer`, applied to
the already-normalized text `t`; first match wins. -/
def localRules (now : DateTime) (t : String) : Option String :=
  if greetMatch t then some "Hello, I am Aarya, how can I assist you today."
  else if t == "hello arya" then some "Hello, I am Aarya, how can I assist you today."
  else if searchAnyWord ["current time", "time now"] t then some now.timeStr
  else if searchAnyWord ["date today", "today date"] t then some now.dateStr
  else if searchAnyWord ["today day", "what day"] t then some now.dayStr
  else if searchAnyWord ["current month"] t then some now.monthStr
  else if searchAnyWord ["current year"] t then some now.yearStr
  else if searchWord "who are you" t then
    some "I am Aarya, a humanoid receptionist robot developed by Ecruxbot."
  else if searchWord "your name" t then some "My name is Aarya."
  else if searchWord "how are you" t then some "I am fine, thank you for asking."
  else if searchWord "features" t then
    some "I can communicate through speech, answer visitor queries, and showcase company technologies."
  else if searchWord "ecruxbot" t then
    some "Ecruxbot is an Indian robotics and artificial intelligence company."
  else if searchAnyWord ["tell me about your company", "about your company", "your company"] t then
    some "Ecruxbot is an Indian robotics and artificial intelligence company."
  else if searchWord "team" t then
    some "The Ecruxbot team includes Hitendra Valhe, Bhagyesh Tajne, and Virendra Valhe."
  else if searchWord "website" t then some "Our official website is ecruxbot.in."
  else if searchAnyWord ["contact", "email"] t then
    some "You can contact Ecruxbot at ecruxbot@gmail.com."
  else if searchWord "purpose" t || searchWord "why are you here" t then
    some "I am designed to assist visitors and provide information."
  else if searchWord "language" t then
    some "I currently speak English and will support Hindi and Marathi in the future."
  else if ["thanks", "thank you", "thank u"].any (t == ·) then some "You are welcome."
  else none

/-- `local_answer` of `ai_server.py`: normalize the input once
(`t = normalize_intent(text)`), then walk the ordered rules over `t`. -/
def local_answer (now : DateTime) (text : String) : Option String :=
  localRules now (normalize_intent text)

/-- The fixed system prompt of `ai_server.py`'s `ollama_reply`.  Declared
deviation from the source text: the single quotes around the dictated
fallback sentence are dropped and its curly-apostrophe contraction is
spelled out (quote and apostrophe characters are avoided in this file).
The constant is opaque to every theorem — the `chat` oracle is universally
quantified — so no claim inspects this text. -/
def system_prompt : String :=
  "You are Aarya, a friendly humanoid receptionist created by Ecruxbot.\n" ++
  "Speak like a calm, helpful human using simple, natural English.\n" ++
  "Always reply in ONE short sentence, under 40 words.\n" ++
  "Be confident but polite.\n" ++
  "Do not explain steps or reasoning.\n" ++
  "If you are unsure or the information may be incorrect, say exactly:\n" ++
  "I do not have information about that right now.\n" ++
  "Never guess or assume facts.\n" ++
  "Never mention being an AI, model, or chatbot.\n" ++
  "Do not roleplay as a hotel or service desk."

/-- `ollama_reply` of `ai_server.py`: one blocking call to the external
backend (the oracle `chat`, modelling `ollama.chat` followed by the
`response["message"]["content"]` access — an unreachable, errored or
malformed-response backend is an oracle error), then `.strip()` on the
content.  No exception handling. -/
def ollama_reply (chat : String → String → Except PyExc String) (prompt : String) :
    Except PyExc String :=
  match chat system_prompt prompt with
  | .ok content => .ok (pyStrip content)
  | .error e => .error e

/-- The `/ask` handler of `ai_server.py`: extract and strip the `"text"`
field, answer `"Please say something."` on empty text, else try the math
path, else the local intent rules, else delegate to the backend.  The
result is the handler's outcome: `.ok reply` for a JSON reply,
`.error e` for an exception escaping the handler. -/
def ask (now : DateTime) (chat : String → String → Except PyExc String)
    (body : Option JVal) : Except PyExc String :=
  match getUserText body with
  | .error e => .error e
  | .ok user_text =>
    if user_text == "" then .ok "Please say something."
    else
      match try_math user_text with
      | some mathReply => .ok mathReply
      | none =>
        match local_answer now user_text with
        | some reply => .ok reply
        | none => ollama_reply chat user_text

end AiServer

/-! ## `src/ai_server_2.py` -/

namespace AiServer2

/-- `try_math` of `ai_server_2.py`: identical to `ai_server.py`'s except
for the reply format, which has no colon: `"The answer is {result}."`. -/
def try_math (text : String) : Option String :=
  let t := pyLower text
  if mathGate t then
    match safe_eval (mathClean t) with
    | .ok r => some ("The answer is " ++ displayResult r ++ ".")
    | .error _ => none
  else none

/-- The ordered intent rules of `ai_server_2.py`'s `local_answer`.  Note
`r"\blocation|address\b"` groups as `(\blocation)|(address\b)` and
`r"\bwhat can you do|services|help\b"` as
`(\bwhat can you do)|(services)|(help\b)`. -/
def localRules (now : DateTime) (t : String) : Option String :=
  if greetMatch t then some "Hello! I am Aarya. How can I help you today?"
  else if searchAnyWord ["current time", "time now"] t then some now.timeStr
  else if searchAnyWord ["date today", "today date", "what is the date"] t then some now.dateStr
  else if searchAnyWord ["today day", "what day is it"] t then some now.dayStr
  else if searchHelloName t then some "Hello! I am Aarya. How can I help you today?"
  else if searchWord "who are you" t then
    some "I am Aarya, your friendly humanoid receptionist robot."
  else if searchWord "your name" t then some "My name is Aarya."
  else if searchAnyWord
      ["ecruxbot", "your company", "about your company", "tell me about your company"] t then
    some "Ecruxbot is an Indian company creating robots and AI solutions for everyone"
  else if searchAnyWord ["your team", "tell me about your team", "who is in your team"] t then
    some "Our team consists of Hitendra Valhe, Virendra Valhe, and Bhagyesh Tajne."
  else if searchWord "website" t then some "You can visit our website at ecruxbot.in."
  else if searchLeftWord "location" t || searchRightWord "address" t then
    some "Our office is at 2nd Floor, Near M. J. College, Jalgaon, Maharashtra, India."
  else if searchLeftWord "what can you do" t || containsSub "services" t
      || searchRightWord "help" t then
    some "I can answer questions, tell time, provide company info, and chat with you."
  else if ["thanks", "thank you", "thank u"].any (t == ·) then some "You are welcome! "
  else if ["bye", "goodbye", "see you"].any (t == ·) then some "Goodbye! Have a great day."
  else none

/-- `local_answer` of `ai_server_2.py`. -/
def local_answer (now : DateTime) (text : String) : Option String :=
  localRules now (normalize_intent text)

/-- The fixed system prompt of `ai_server_2.py`'s `ollama_reply`.
Declared deviation from the source text: the single quotes around the
dictated fallback sentence are dropped (quote characters are avoided in
this file).  Opaque to every theorem; no claim inspects this text. -/
def system_prompt : String :=
  "You are Aarya, a professional humanoid receptionist robot.\n" ++
  "Answer confidently in ONE sentence.\n" ++
  "Use easy and simple English.\n" ++
  "Do not explain reasoning.\n" ++
  "Never say you are an AI model.\n" ++
  "If you are not sure about an answer, say: " ++
  "I do not have knowledge about that right now."

/-- `ollama_reply` of `ai_server_2.py` (same structure as
`ai_server.py`'s, with its own prompt). -/
def ollama_reply (chat : String → String → Except PyExc String) (prompt : String) :
    Except PyExc String :=
  match chat system_prompt prompt with
  | .ok content => .ok (pyStrip content)
  | .error e => .error e

/-- The `/ask` handler of `ai_server_2.py` (same structure as
`ai_server.py`'s). -/
def ask (now : DateTime) (chat : String → String → Except PyExc String)
    (body : Option JVal) : Except PyExc String :=
  match getUserText body with
  | .error e => .error e
  | .ok user_text =>
    if user_text == "" then .ok "Please say something."
    else
      match try_math user_text with
      | some mathReply => .ok mathReply
      | none =>
        match local_answer now user_text with
        | some reply => .ok reply
        | none => ollama_reply chat user_text

end AiServer2

/-! # Theorems -/

/-! ## Soundness of the one-pass parser against the reference scan -/

theorem closePending_eval (pending : Option (PyExpr × PyBinOp)) (term : PyExpr)
    (hp : pendOk pending) :
    evalNode (closePending pending term) =
      match semState pending term with
      | .ok (s, t) => .ok (s + t)
      | .error er => .error er := by
  match pending with
  | none =>
    cases h : evalNode term <;> simp [closePending, semState, h]
  | some (e, op) =>
    rcases hp with hop | hop <;> subst hop <;>
      cases he : evalNode e <;> cases ht : evalNode term <;>
        simp [closePending, semState, evalNode, allowedOp, he, ht, pendSign, neg_one_mul,
          ← sub_eq_add_neg]

theorem semState_mult (pending : Option (PyExpr × PyBinOp)) (term : PyExpr) (q : ℚ) :
    semState pending (.binOp .mult term (.num q)) =
      match semState pending term with
      | .ok (s, t) => .ok (s, t * q)
      | .error er => .error er := by
  match pending with
  | none =>
    cases h : evalNode term <;> simp [semState, evalNode, allowedOp, h, mul_assoc]
  | some (e, op) =>
    cases he : evalNode e <;> cases ht : evalNode term <;>
      simp [semState, evalNode, allowedOp, he, ht, mul_assoc]

theorem semState_div (pending : Option (PyExpr × PyBinOp)) (term : PyExpr) (q : ℚ) :
    semState pending (.binOp .div term (.num q)) =
      match semState pending term with
      | .ok (s, t) => if q = 0 then .error .divisionByZero else .ok (s, t / q)
      | .error er => .error er := by
  match pending with
  | none =>
    cases h : evalNode term <;> by_cases hq : q = 0 <;>
      simp [semState, evalNode, allowedOp, h, hq, mul_div_assoc]
  | some (e, op) =>
    cases he : evalNode e <;> cases ht : evalNode term <;> by_cases hq : q = 0 <;>
      simp [semState, evalNode, allowedOp, he, ht, hq, mul_div_assoc]

theorem semState_close (pending : Option (PyExpr × PyBinOp)) (term : PyExpr) (q : ℚ)
    (op : PyBinOp) (hp : pendOk pending) :
    semState (some (closePending pending term, op)) (.num q) =
      match semState pending term with
      | .ok (s, t) => .ok (s + t, pendSign op * q)
      | .error er => .error er := by
  rw [semState, closePending_eval pending term hp]
  cases hs : semState pending term with
  | ok st => simp [evalNode]
  | error er => simp

theorem parseGo_sound (pending : Option (PyExpr × PyBinOp)) (term : PyExpr)
    (toks : List Tok) :
    ∀ e : PyExpr, pendOk pending → parseGo pending term toks = .ok e →
      evalNode e = semRef pending term toks := by
  induction pending, term, toks using parseGo.induct with
  | case1 pending term =>
    intro e hp h
    simp [parseGo] at h
    subst h
    rw [closePending_eval pending term hp, semRef]
    cases hs : semState pending term with
    | ok st => obtain ⟨s, t⟩ := st; simp [refGo]
    | error er => simp
  | case2 pending term q rest ih =>
    intro e hp h
    simp only [parseGo] at h
    rw [ih e hp h]
    simp only [semRef, semState_mult]
    cases hs : semState pending term with
    | ok st => obtain ⟨s, t⟩ := st; simp [refGo]
    | error er => simp
  | case3 pending term q rest ih =>
    intro e hp h
    simp only [parseGo] at h
    rw [ih e hp h]
    simp only [semRef, semState_div]
    cases hs : semState pending term with
    | ok st =>
      obtain ⟨s, t⟩ := st
      by_cases hq : q = 0 <;> simp [refGo, hq]
    | error er => simp
  | case4 pending term q rest ih =>
    intro e hp h
    simp only [parseGo] at h
    rw [ih e (Or.inl rfl) h]
    simp only [semRef, semState_close pending term q .add hp]
    cases hs : semState pending term with
    | ok st => obtain ⟨s, t⟩ := st; simp [refGo, pendSign]
    | error er => simp
  | case5 pending term q rest ih =>
    intro e hp h
    simp only [parseGo] at h
    rw [ih e (Or.inr rfl) h]
    simp only [semRef, semState_close pending term q .sub hp]
    cases hs : semState pending term with
    | ok st => obtain ⟨s, t⟩ := st; simp [refGo, pendSign]
    | error er => simp
  | case6 t pending term h1 h2 h3 h4 h5 =>
    intro e hp h
    exfalso
    unfold parseGo at h
    split at h
    · exact h1 rfl
    · exact h2 _ _ rfl
    · exact h3 _ _ rfl
    · exact h4 _ _ rfl
    · exact h5 _ _ rfl
    · cases h

/-- Parsing a token stream and evaluating the resulting tree agrees with
the reference scan `refEval`. -/
theorem parse_then_eval (toks : List Tok) (e : PyExpr)
    (h : parsePyExpr toks = .ok e) : evalNode e = refEval toks := by
  match toks with
  | .num q :: rest =>
    simp only [parsePyExpr] at h
    rw [parseGo_sound none (.num q) rest e trivial h]
    simp [semRef, semState, evalNode, refEval]
  | [] => simp [parsePyExpr] at h
  | .plus :: rest => simp [parsePyExpr] at h
  | .minus :: rest => simp [parsePyExpr] at h
  | .star :: rest => simp [parsePyExpr] at h
  | .slash :: rest => simp [parsePyExpr] at h

/-- Parsing-skeleton correctness over the exact-arithmetic idealization:
for every text that tokenizes and whose token stream parses (the
syntactically valid single expressions over the four operators),
`safe_eval` returns the result prescribed by the spec-side reference
evaluator `refEval` — standard precedence (`* /` bind tighter than `+ -`),
left-to-right associativity — and the result is insensitive to
whitespace, depending only on the token stream.  Both sides compute in
`ℚ`; this settles the grammar, precedence, associativity and whitespace
parts of the spec, but not the program's floating-point result values
(see the file header: `0.1+0.2` is `0.30000000000000004` in the program,
`3/10` in this idealization). -/
theorem evaluator_precedence_correct (s : String) (toks : List Tok) (e : PyExpr)
    (htok : tokenize s = .ok toks) (hp : parsePyExpr toks = .ok e) :
    safe_eval s = refEval toks ∧
      ∀ t : String, tokenize t = .ok toks → safe_eval t = safe_eval s := by
  have hs : safe_eval s = evalNode e := by simp [safe_eval, htok, hp]
  constructor
  · rw [hs]
    exact parse_then_eval toks e hp
  · intro t ht
    simp [safe_eval, ht, htok]

/-- The parsing-skeleton theorem instantiated at `"2+3*4-6/2"`, whose
reference value is `11` (an integer-only computation, on which the
idealization and the program coincide). -/
theorem evaluator_precedence_correct_witness :
    safe_eval "2+3*4-6/2" =
      refEval [.num 2, .plus, .num 3, .star, .num 4, .minus, .num 6, .slash, .num 2] ∧
    refEval [.num 2, .plus, .num 3, .star, .num 4, .minus, .num 6, .slash, .num 2] =
      .ok 11 := by
  constructor
  · exact (evaluator_precedence_correct "2+3*4-6/2"
      [.num 2, .plus, .num 3, .star, .num 4, .minus, .num 6, .slash, .num 2]
      (.binOp .sub (.binOp .add (.num 2) (.binOp .mult (.num 3) (.num 4)))
        (.binOp .div (.num 6) (.num 2)))
      (by simp [tokenize, tokenizeAux, lexNum, intLitOk, isNumChar, digitsVal]; try norm_num)
      (by rfl)).1
  · simp [refEval, refGo]
    norm_num

/-! ## Safety of the evaluator (C1, C5, C4) -/

theorem pure_not_banned (e : PyExpr) (h : pureArith e = true) :
    containsBanned e = false := by
  induction e <;> simp_all [pureArith, containsBanned]

/-- C1: `safe_eval`'s tree walk produces a value only on trees built
entirely from numeric literals and the four whitelisted operators, and
every tree containing an identifier, a call or an attribute access yields
an error — never a value, never an uncaught crash (`evalNode` is total
with `Except`-valued errors).  No environment, callable or object is in
scope anywhere in `evalNode`, so no identifier lookup, function call or
attribute access can be performed. -/
theorem safe_eval_whitelist (e : PyExpr) :
    (containsBanned e = true → ∃ err, evalNode e = .error err) ∧
    (∀ v : ℚ, evalNode e = .ok v → pureArith e = true) := by
  induction e with
  | num q =>
    exact ⟨by intro h; simp [containsBanned] at h, by intro v _; rfl⟩
  | binOp op l r ihl ihr =>
    constructor
    · intro h
      by_cases hop : allowedOp op
      · cases hl : evalNode l with
        | error e1 => exact ⟨e1, by simp [evalNode, hop, hl]⟩
        | ok a =>
          cases hr : evalNode r with
          | error e2 => exact ⟨e2, by simp [evalNode, hop, hl, hr]⟩
          | ok b =>
            have hbl := pure_not_banned l (ihl.2 a hl)
            have hbr := pure_not_banned r (ihr.2 b hr)
            simp [containsBanned, hbl, hbr] at h
      · exact ⟨.invalidOperator, by simp [evalNode, hop]⟩
    · intro v hv
      by_cases hop : allowedOp op
      · cases hl : evalNode l with
        | error e1 => simp [evalNode, hop, hl] at hv
        | ok a =>
          cases hr : evalNode r with
          | error e2 => simp [evalNode, hop, hl, hr] at hv
          | ok b =>
            simp [pureArith, hop, ihl.2 a hl, ihr.2 b hr]
      · simp [evalNode, hop] at hv
  | unaryOp op e ih =>
    exact ⟨fun _ => ⟨.invalidExpression, rfl⟩, by intro v hv; simp [evalNode] at hv⟩
  | name id =>
    exact ⟨fun _ => ⟨.invalidExpression, rfl⟩, by intro v hv; simp [evalNode] at hv⟩
  | call f ih =>
    exact ⟨fun _ => ⟨.invalidExpression, rfl⟩, by intro v hv; simp [evalNode] at hv⟩
  | attr o field ih =>
    exact ⟨fun _ => ⟨.invalidExpression, rfl⟩, by intro v hv; simp [evalNode] at hv⟩
  | otherNode =>
    exact ⟨by intro h; simp [containsBanned] at h, by intro v hv; simp [evalNode] at hv⟩

/-- Witness for C1: an identifier errors, and a pure sum is recognized as
whitelisted arithmetic. -/
theorem safe_eval_whitelist_witness :
    (∃ err, evalNode (.name "os") = .error err) ∧
      pureArith (.binOp .add (.num 2) (.num 2)) = true :=
  ⟨(safe_eval_whitelist (.name "os")).1 (by decide),
   (safe_eval_whitelist (.binOp .add (.num 2) (.num 2))).2 4 (by simp [evalNode, allowedOp]; norm_num)⟩

/-- C5 counterexample: inputs containing parentheses or a variable do not
yield a parse error — the math path deletes those characters and returns a
value computed from the rewritten text.  `"(2+3)*4"` is answered `14`
(the parenthesized value would be `20`, `displayResult ((2+3)*4)`), and
`"foo 7"` is answered `7` with the variable `foo` ignored. -/
theorem disallowed_constructs_rewritten :
    AiServer.try_math "(2+3)*4" = some "The answer is: 14." ∧
    AiServer.try_math "(2+3)*4" ≠
      some ("The answer is: " ++ displayResult ((2 + 3) * 4) ++ ".") ∧
    AiServer.try_math "foo 7" = some "The answer is: 7." := by
  refine ⟨?_, ?_, ?_⟩
  · simp [AiServer.try_math, pyLower, mathGate, containsSub, scanAux, matchHead, mathClean,
      words_to_numbers, NUM_WORDS, subWord, subWordAux, leftBoundOk, rightBoundOk, isPyWord,
      words_to_operators, OP_WORDS, strReplace, strReplaceAux, xCollapse, xCollapseAux, tryXMatch,
      isPySpace, cleanup, cleanupKeep, pyStripL, trimL, safe_eval, tokenize, tokenizeAux, lexNum, intLitOk,
      isNumChar, digitsVal, parsePyExpr, parseGo, closePending, evalNode, allowedOp, displayResult]
    try norm_num
    try decide
  · simp [AiServer.try_math, pyLower, mathGate, containsSub, scanAux, matchHead, mathClean,
      words_to_numbers, NUM_WORDS, subWord, subWordAux, leftBoundOk, rightBoundOk, isPyWord,
      words_to_operators, OP_WORDS, strReplace, strReplaceAux, xCollapse, xCollapseAux, tryXMatch,
      isPySpace, cleanup, cleanupKeep, pyStripL, trimL, safe_eval, tokenize, tokenizeAux, lexNum, intLitOk,
      isNumChar, digitsVal, parsePyExpr, parseGo, closePending, evalNode, allowedOp, displayResult]
    try norm_num
    try decide
  · simp [AiServer.try_math, pyLower, mathGate, containsSub, scanAux, matchHead, mathClean,
      words_to_numbers, NUM_WORDS, subWord, subWordAux, leftBoundOk, rightBoundOk, isPyWord,
      words_to_operators, OP_WORDS, strReplace, strReplaceAux, xCollapse, xCollapseAux, tryXMatch,
      isPySpace, cleanup, cleanupKeep, pyStripL, trimL, safe_eval, tokenize, tokenizeAux, lexNum, intLitOk,
      isNumChar, digitsVal, parsePyExpr, parseGo, closePending, evalNode, allowedOp, displayResult]
    try norm_num
    try decide

/-- C5 (amended): a unary minus, an exponentiation or a variable that
reaches the evaluator's tree walk always yields an error, never a
best-effort value; but parentheses and variable characters in the raw
input are deleted by the math-path normalization before evaluation, so
their presence can yield a value computed from the rewritten text (see the
counterexample). -/
theorem unary_pow_var_error (e : PyExpr) (h : hasUnaryMinusPowOrVar e = true) :
    ∃ err, evalNode e = .error err := by
  induction e with
  | num q => simp [hasUnaryMinusPowOrVar] at h
  | otherNode => simp [hasUnaryMinusPowOrVar] at h
  | name id => exact ⟨.invalidExpression, rfl⟩
  | call f ih => exact ⟨.invalidExpression, rfl⟩
  | attr o field ih => exact ⟨.invalidExpression, rfl⟩
  | unaryOp op e ih => exact ⟨.invalidExpression, rfl⟩
  | binOp op l r ihl ihr =>
    by_cases hop : allowedOp op
    · have hchild : hasUnaryMinusPowOrVar l = true ∨ hasUnaryMinusPowOrVar r = true := by
        cases op <;> simp_all [hasUnaryMinusPowOrVar, allowedOp]
      cases hl : evalNode l with
      | error e1 => exact ⟨e1, by simp [evalNode, hop, hl]⟩
      | ok a =>
        cases hr : evalNode r with
        | error e2 => exact ⟨e2, by simp [evalNode, hop, hl, hr]⟩
        | ok b =>
          exfalso
          rcases hchild with hc | hc
          · obtain ⟨err, herr⟩ := ihl hc
            rw [hl] at herr
            cases herr
          · obtain ⟨err, herr⟩ := ihr hc
            rw [hr] at herr
            cases herr
    · exact ⟨.invalidOperator, by simp [evalNode, hop]⟩

/-- Witness for the amended C5: a unary minus node errors. -/
theorem unary_pow_var_error_witness :
    ∃ err, evalNode (.unaryOp .uSub (.num 3)) = .error err :=
  unary_pow_var_error (.unaryOp .uSub (.num 3)) (by decide)

/-- C4: a division whose divisor evaluates to exactly zero fails with
`divisionByZero` (never a value, so never infinity or NaN), concretely
`safe_eval "4/0"` fails with `divisionByZero`, and the error never leaks
past the math path: `try_math "4/0"` is `None` in both servers. -/
theorem division_by_zero_error :
    (∀ l r : PyExpr, ∀ a : ℚ, evalNode l = .ok a → evalNode r = .ok 0 →
      evalNode (.binOp .div l r) = .error .divisionByZero) ∧
    safe_eval "4/0" = .error .divisionByZero ∧
    AiServer.try_math "4/0" = none ∧ AiServer2.try_math "4/0" = none := by
  refine ⟨?_, ?_, ?_, ?_⟩
  · intro l r a hl hr
    simp [evalNode, allowedOp, hl, hr]
  · simp [safe_eval, tokenize, tokenizeAux, lexNum, intLitOk, isNumChar, digitsVal, parsePyExpr, parseGo,
      closePending, evalNode, allowedOp]
    try norm_num
  · simp [AiServer.try_math, pyLower, mathGate, containsSub, scanAux, matchHead, mathClean,
      words_to_numbers, NUM_WORDS, subWord, subWordAux, leftBoundOk, rightBoundOk, isPyWord,
      words_to_operators, OP_WORDS, strReplace, strReplaceAux, xCollapse, xCollapseAux, tryXMatch,
      isPySpace, cleanup, cleanupKeep, pyStripL, trimL, safe_eval, tokenize, tokenizeAux, lexNum, intLitOk,
      isNumChar, digitsVal, parsePyExpr, parseGo, closePending, evalNode, allowedOp, displayResult]
    try norm_num
  · simp [AiServer2.try_math, pyLower, mathGate, containsSub, scanAux, matchHead, mathClean,
      words_to_numbers, NUM_WORDS, subWord, subWordAux, leftBoundOk, rightBoundOk, isPyWord,
      words_to_operators, OP_WORDS, strReplace, strReplaceAux, xCollapse, xCollapseAux, tryXMatch,
      isPySpace, cleanup, cleanupKeep, pyStripL, trimL, safe_eval, tokenize, tokenizeAux, lexNum, intLitOk,
      isNumChar, digitsVal, parsePyExpr, parseGo, closePending, evalNode, allowedOp, displayResult]
    try norm_num

/-- Witness for C4 at the division node `4 / 0`. -/
theorem division_by_zero_error_witness :
    evalNode (.binOp .div (.num 4) (.num 0)) = .error .divisionByZero :=
  division_by_zero_error.1 (.num 4) (.num 0) 4 rfl rfl

/-- C6: every evaluator failure is recovered locally.  If the evaluation
of the normalized math text fails with any error, `try_math` returns
`None`, and the `/ask` handler proceeds exactly to intent resolution and
then the backend — the reply is the fall-through reply, in which the
evaluator's error value does not occur (the right-hand side does not
mention `err`), so no evaluator error is surfaced or distinguishable. -/
theorem evaluator_failure_falls_through :
    (∀ (text : String) (err : EvalErr), safe_eval (mathNormalize text) = .error err →
      AiServer.try_math text = none) ∧
    (∀ (now : DateTime) (chat : String → String → Except PyExc String)
        (body : Option JVal) (user_text : String),
      getUserText body = .ok user_text → user_text ≠ "" →
      AiServer.try_math user_text = none →
      AiServer.ask now chat body =
        match AiServer.local_answer now user_text with
        | some reply => .ok reply
        | none => AiServer.ollama_reply chat user_text) := by
  constructor
  · intro text err h
    unfold mathNormalize at h
    unfold AiServer.try_math
    by_cases hg : mathGate (pyLower text)
    · simp [hg, h]
    · simp [hg]
  · intro now chat body user_text hb hne hm
    unfold AiServer.ask
    simp [hb, hne, hm]

/-- Witness for C6 at `"10 divided by 0"`: the normalized text `"10 / 0"`
fails with `divisionByZero`, `try_math` declines, no intent rule matches,
and the handler returns the (stub) backend's reply. -/
theorem evaluator_failure_falls_through_witness :
    AiServer.try_math "10 divided by 0" = none ∧
    AiServer.ask ⟨"", "", "", "", ""⟩ (fun _ _ => .ok " backend stub ")
      (some (.jobj [("text", .jstr "10 divided by 0")])) = .ok "backend stub" := by
  have h1 : safe_eval (mathNormalize "10 divided by 0") = .error .divisionByZero := by
    simp [mathNormalize, pyLower, mathClean,
      words_to_numbers, NUM_WORDS, subWord, subWordAux, leftBoundOk, rightBoundOk, isPyWord,
      words_to_operators, OP_WORDS, strReplace, strReplaceAux, xCollapse, xCollapseAux, tryXMatch,
      isPySpace, cleanup, cleanupKeep, pyStripL, trimL, safe_eval, tokenize, tokenizeAux, lexNum, intLitOk,
      isNumChar, digitsVal, parsePyExpr, parseGo, closePending, evalNode, allowedOp]
    try norm_num
  have h2 : AiServer.try_math "10 divided by 0" = none :=
    evaluator_failure_falls_through.1 "10 divided by 0" .divisionByZero h1
  refine ⟨h2, ?_⟩
  rw [evaluator_failure_falls_through.2 ⟨"", "", "", "", ""⟩ (fun _ _ => .ok " backend stub ")
    (some (.jobj [("text", .jstr "10 divided by 0")])) "10 divided by 0"
    (by simp [getUserText, lookupField, pythonTruthy, pyStrip, pyStripL, trimL, isPySpace])
    (by decide) h2]
  simp [AiServer.local_answer, AiServer.localRules, normalize_intent, pyLower, pyStripL, trimL,
    isPySpace, isPyWord, greetMatch, searchAnyWord, searchWord, searchLeftWord, searchRightWord,
    searchHelloName, helloNameHere, containsSub, scanAux, matchHead, leftBoundOk, rightBoundOk,
    AiServer.ollama_reply, AiServer.system_prompt, pyStrip]

/-- C7 counterexample: on the raw input `"two plus two"`, `ai_server_2.py`
replies `"The answer is 4."` — without the colon — so the pipeline does not
return exactly `"The answer is: 4."` in both servers. -/
theorem two_plus_two_server2_reply :
    AiServer2.ask ⟨"", "", "", "", ""⟩ (fun _ _ => .ok "")
        (some (.jobj [("text", .jstr "two plus two")])) = .ok "The answer is 4." ∧
      ("The answer is 4." : String) ≠ "The answer is: 4." := by
  constructor
  · simp [AiServer2.ask, getUserText, lookupField, pythonTruthy, pyStrip, pyStripL, trimL,
      isPySpace, AiServer2.try_math, pyLower, mathGate, containsSub, scanAux, matchHead, mathClean,
      words_to_numbers, NUM_WORDS, subWord, subWordAux, leftBoundOk, rightBoundOk, isPyWord,
      words_to_operators, OP_WORDS, strReplace, strReplaceAux, xCollapse, xCollapseAux, tryXMatch,
      cleanup, cleanupKeep, safe_eval, tokenize, tokenizeAux, lexNum, intLitOk,
      isNumChar, digitsVal, parsePyExpr, parseGo, closePending, evalNode, allowedOp, displayResult]
    try norm_num
    try decide
  · decide

/-- C7 (amended): on the raw input `"two plus two"` both pipelines take the
math path; `ai_server.py` replies exactly `"The answer is: 4."` and
`ai_server_2.py` replies exactly `"The answer is 4."` (no colon). -/
theorem two_plus_two_replies :
    (∀ (now : DateTime) (chat : String → String → Except PyExc String),
      AiServer.ask now chat (some (.jobj [("text", .jstr "two plus two")])) =
        .ok "The answer is: 4.") ∧
    (∀ (now : DateTime) (chat : String → String → Except PyExc String),
      AiServer2.ask now chat (some (.jobj [("text", .jstr "two plus two")])) =
        .ok "The answer is 4.") := by
  constructor
  · intro now chat
    simp [AiServer.ask, getUserText, lookupField, pythonTruthy, pyStrip, pyStripL, trimL,
      isPySpace, AiServer.try_math, pyLower, mathGate, containsSub, scanAux, matchHead, mathClean,
      words_to_numbers, NUM_WORDS, subWord, subWordAux, leftBoundOk, rightBoundOk, isPyWord,
      words_to_operators, OP_WORDS, strReplace, strReplaceAux, xCollapse, xCollapseAux, tryXMatch,
      cleanup, cleanupKeep, safe_eval, tokenize, tokenizeAux, lexNum, intLitOk,
      isNumChar, digitsVal, parsePyExpr, parseGo, closePending, evalNode, allowedOp, displayResult]
    try norm_num
    try decide
  · intro now chat
    simp [AiServer2.ask, getUserText, lookupField, pythonTruthy, pyStrip, pyStripL, trimL,
      isPySpace, AiServer2.try_math, pyLower, mathGate, containsSub, scanAux, matchHead, mathClean,
      words_to_numbers, NUM_WORDS, subWord, subWordAux, leftBoundOk, rightBoundOk, isPyWord,
      words_to_operators, OP_WORDS, strReplace, strReplaceAux, xCollapse, xCollapseAux, tryXMatch,
      cleanup, cleanupKeep, safe_eval, tokenize, tokenizeAux, lexNum, intLitOk,
      isNumChar, digitsVal, parsePyExpr, parseGo, closePending, evalNode, allowedOp, displayResult]
    try norm_num
    try decide

/-- C3 counterexample: when every local strategy declines and the backend
call fails, the exception propagates out of the `/ask` handler — the
caller gets an error, not a reply string.  (`"qqq"` passes neither the
math gate nor any intent rule.) -/
theorem ask_backend_failure_propagates :
    AiServer.ask ⟨"", "", "", "", ""⟩ (fun _ _ => .error .backendFailure)
      (some (.jobj [("text", .jstr "qqq")])) = .error .backendFailure := by
  simp [AiServer.ask, getUserText, lookupField, pythonTruthy, pyStrip, pyStripL, trimL,
    isPySpace, AiServer.try_math, pyLower, mathGate, containsSub, scanAux, matchHead,
    AiServer.local_answer, AiServer.localRules, normalize_intent, isPyWord, greetMatch,
    searchAnyWord, searchWord, searchLeftWord, searchRightWord, searchHelloName, helloNameHere,
    leftBoundOk, rightBoundOk, AiServer.ollama_reply, AiServer.system_prompt]

/-- C3 (amended): the `/ask` handler returns some reply string whenever
the text extraction succeeds and the backend call succeeds (the local
strategies short-circuit before it); but when every local strategy
declines and the backend call fails, `ask` propagates the backend's
exception to the caller instead of producing a degraded reply. -/
theorem ask_replies_unless_backend_fails :
    (∀ (now : DateTime) (chat : String → String → Except PyExc String)
        (body : Option JVal) (user_text content : String),
      getUserText body = .ok user_text →
      chat AiServer.system_prompt user_text = .ok content →
      ∃ reply, AiServer.ask now chat body = .ok reply) ∧
    (∀ (now : DateTime) (chat : String → String → Except PyExc String)
        (body : Option JVal) (user_text : String) (exc : PyExc),
      getUserText body = .ok user_text → user_text ≠ "" →
      AiServer.try_math user_text = none → AiServer.local_answer now user_text = none →
      chat AiServer.system_prompt user_text = .error exc →
      AiServer.ask now chat body = .error exc) := by
  constructor
  · intro now chat body user_text content hb hc
    by_cases he : user_text = ""
    · exact ⟨"Please say something.", by simp [AiServer.ask, hb, he]⟩
    · cases hm : AiServer.try_math user_text with
      | some mathReply => exact ⟨mathReply, by simp [AiServer.ask, hb, he, hm]⟩
      | none =>
        cases hl : AiServer.local_answer now user_text with
        | some reply => exact ⟨reply, by simp [AiServer.ask, hb, he, hm, hl]⟩
        | none =>
          exact ⟨pyStrip content,
            by simp [AiServer.ask, hb, he, hm, hl, AiServer.ollama_reply, hc]⟩
  · intro now chat body user_text exc hb hne hm hl hc
    simp [AiServer.ask, hb, hne, hm, hl, AiServer.ollama_reply, hc]

/-- Witness for the amended C3: with a succeeding stub backend, the
handler replies (here via the backend path on `"qqq"`). -/
theorem ask_replies_unless_backend_fails_witness :
    ∃ reply, AiServer.ask ⟨"", "", "", "", ""⟩ (fun _ _ => .ok "fine")
      (some (.jobj [("text", .jstr "qqq")])) = .ok reply :=
  ask_replies_unless_backend_fails.1 ⟨"", "", "", "", ""⟩ (fun _ _ => .ok "fine")
    (some (.jobj [("text", .jstr "qqq")])) "qqq" "fine"
    (by simp [getUserText, lookupField, pythonTruthy, pyStrip, pyStripL, trimL, isPySpace])
    rfl

/-- C9: intent resolution depends only on the normalized text — for any
two raw inputs with equal `normalize_intent` images and a frozen clock,
`local_answer` returns the same reply in both servers, so casing and
punctuation of the raw input can never change which rule matches. -/
theorem local_answer_normalized_determinism (now : DateTime) (x y : String)
    (h : normalize_intent x = normalize_intent y) :
    AiServer.local_answer now x = AiServer.local_answer now y ∧
    AiServer2.local_answer now x = AiServer2.local_answer now y := by
  unfold AiServer.local_answer AiServer2.local_answer
  rw [h]
  exact ⟨rfl, rfl⟩

/-- Witness for C9 at `"Hello!"` vs `"hello"` (same normalized form, and
indeed the same greeting reply). -/
theorem local_answer_normalized_determinism_witness :
    normalize_intent "Hello!" = normalize_intent "hello" ∧
    AiServer.local_answer ⟨"", "", "", "", ""⟩ "Hello!" =
      AiServer.local_answer ⟨"", "", "", "", ""⟩ "hello" ∧
    AiServer.local_answer ⟨"", "", "", "", ""⟩ "hello" =
      some "Hello, I am Aarya, how can I assist you today." := by
  have h : normalize_intent "Hello!" = normalize_intent "hello" := by decide
  refine ⟨h, (local_answer_normalized_determinism ⟨"", "", "", "", ""⟩ "Hello!" "hello" h).1, ?_⟩
  simp [AiServer.local_answer, AiServer.localRules, normalize_intent, pyLower, pyStripL, trimL,
    isPySpace, isPyWord, greetMatch]

/-- C10 counterexample: a truthy non-object JSON body — for example the
array `[1]`, a JSON body with no `"text"` field — does not get the
`"Please say something."` reply: `.get` raises `AttributeError`, which
escapes the handler. -/
theorem ask_nonobject_body_crashes :
    AiServer.ask ⟨"", "", "", "", ""⟩ (fun _ _ => .ok "") (some (.jarr [.jnum 1])) =
      .error .attributeError ∧
    AiServer2.ask ⟨"", "", "", "", ""⟩ (fun _ _ => .ok "") (some (.jarr [.jnum 1])) =
      .error .attributeError := by
  constructor
  · simp [AiServer.ask, getUserText, pythonTruthy]
  · simp [AiServer2.ask, getUserText, pythonTruthy]

/-- C10 (amended): a request with no JSON body, an unparseable body, a
falsy JSON body, or a JSON **object** body missing the `"text"` field is
treated exactly like whitespace-only input: both handlers return the fixed
`"Please say something."` reply, independently of the clock and the
backend oracle (so neither the math path, the resolver, nor the backend
influences the reply).  A truthy non-object body instead raises
`AttributeError` (see the counterexample). -/
theorem ask_benign_body_prompt (now : DateTime)
    (chat : String → String → Except PyExc String) (body : Option JVal)
    (hb : benignNoText body = true) :
    AiServer.ask now chat body = .ok "Please say something." ∧
    AiServer2.ask now chat body = .ok "Please say something." := by
  have hg : getUserText body = .ok "" := by
    match body with
    | none => simp [getUserText, lookupField, pyStrip, pyStripL, trimL]
    | some v =>
      by_cases ht : pythonTruthy v
      · match v with
        | .jobj fields =>
          simp [benignNoText, ht, Option.isNone_iff_eq_none] at hb
          simp [getUserText, ht, hb, pyStrip, pyStripL, trimL]
        | .jnull | .jbool _ | .jnum _ | .jstr _ | .jarr _ =>
          simp [benignNoText, ht] at hb
      · simp [getUserText, ht, lookupField, pyStrip, pyStripL, trimL]
  exact ⟨by simp [AiServer.ask, hg], by simp [AiServer2.ask, hg]⟩

/-- Witness for the amended C10: an object body without `"text"`. -/
theorem ask_benign_body_prompt_witness :
    benignNoText (some (.jobj [("foo", .jstr "bar")])) = true ∧
    AiServer.ask ⟨"", "", "", "", ""⟩ (fun _ _ => .ok "")
      (some (.jobj [("foo", .jstr "bar")])) = .ok "Please say something." :=
  ⟨by decide,
   (ask_benign_body_prompt ⟨"", "", "", "", ""⟩ (fun _ _ => .ok "")
     (some (.jobj [("foo", .jstr "bar")])) (by decide)).1⟩

/-! ## Idempotence of the math-path normalization (C8) -/


theorem data_mk (l : List Char) : (String.mk l).data = l := rfl

theorem mathClean_data (t : String) :
    (mathClean t).data =
      pyStripL (cleanup (words_to_operators (words_to_numbers t)).data) := by
  rw [mathClean]

theorem mathNormalize_data (s : String) :
    (mathNormalize s).data =
      pyStripL (cleanup (words_to_operators (words_to_numbers (pyLower s))).data) := by
  rw [mathNormalize, mathClean_data]



theorem char_of_toNat {c d : Char} (h : c.val.toNat = d.val.toNat) : c = d :=
  Char.eq_of_val_eq (UInt32.ext h)

theorem mem_allowed (c : Char) (h : cleanupKeep c = true) : c ∈ allowedChars := by
  simp only [cleanupKeep, Bool.or_eq_true, decide_eq_true_eq] at h
  rcases h with ((((((hd | h) | h) | h) | h) | h) | h)
  · simp only [Char.isDigit, Bool.and_eq_true, decide_eq_true_eq] at hd
    obtain ⟨h1, h2⟩ := hd
    have hn1 : 48 ≤ c.val.toNat := h1
    have hn2 : c.val.toNat ≤ 57 := h2
    interval_cases hn : c.val.toNat
    · rw [show c = '0' from char_of_toNat hn]; decide
    · rw [show c = '1' from char_of_toNat hn]; decide
    · rw [show c = '2' from char_of_toNat hn]; decide
    · rw [show c = '3' from char_of_toNat hn]; decide
    · rw [show c = '4' from char_of_toNat hn]; decide
    · rw [show c = '5' from char_of_toNat hn]; decide
    · rw [show c = '6' from char_of_toNat hn]; decide
    · rw [show c = '7' from char_of_toNat hn]; decide
    · rw [show c = '8' from char_of_toNat hn]; decide
    · rw [show c = '9' from char_of_toNat hn]; decide
  all_goals subst h
  all_goals decide

theorem allowed_props : ∀ c ∈ allowedChars, c.toLower = c ∧ c.isAlpha = false ∧ c ≠ 'x' := by
  decide

theorem dropWhile_idem (p : Char → Bool) (l : List Char) :
    (l.dropWhile p).dropWhile p = l.dropWhile p := by
  induction l with
  | nil => rfl
  | cons c cs ih =>
    rw [List.dropWhile_cons]
    by_cases h : p c = true
    · rw [if_pos h]; exact ih
    · rw [if_neg h, List.dropWhile_cons, if_neg h]

theorem trimL_eq_self (l : List Char) (h : ∀ c, l.head? = some c → isPySpace c = false) :
    trimL l = l := by
  match l with
  | [] => rfl
  | c :: cs =>
    rw [trimL, List.dropWhile_cons, if_neg]
    rw [h c rfl]
    simp

theorem head?_trimL (l : List Char) (c : Char) (h : (trimL l).head? = some c) :
    isPySpace c = false := by
  induction l with
  | nil => simp [trimL, List.dropWhile] at h
  | cons d ds ih =>
    rw [trimL, List.dropWhile_cons] at h
    by_cases hd : isPySpace d = true
    · rw [if_pos hd] at h
      exact ih h
    · rw [if_neg hd] at h
      simp only [List.head?_cons, Option.some_inj] at h
      subst h
      simpa using hd

theorem pyStripL_idem (l : List Char) : pyStripL (pyStripL l) = pyStripL l := by
  unfold pyStripL
  set A := trimL l with hA
  set B := A.reverse.dropWhile isPySpace with hB
  have h1 : trimL B.reverse = B.reverse := by
    apply trimL_eq_self
    intro c hc
    obtain ⟨t, ht⟩ : B <:+ A.reverse := by rw [hB]; exact List.dropWhile_suffix _
    have hAr : A = B.reverse ++ t.reverse := by
      rw [← List.reverse_append, ht, List.reverse_reverse]
    have hhead : A.head? = some c := by
      rw [hAr]
      cases hBr : B.reverse with
      | nil => rw [hBr] at hc; simp at hc
      | cons b bs =>
        rw [hBr] at hc
        simp only [List.head?_cons, Option.some_inj] at hc
        subst hc
        simp
    exact head?_trimL l c hhead
  rw [h1, List.reverse_reverse, hB, dropWhile_idem]

theorem mem_pyStripL {c : Char} {l : List Char} (h : c ∈ pyStripL l) : c ∈ l := by
  unfold pyStripL trimL at h
  rw [List.mem_reverse] at h
  have h2 := (List.dropWhile_sublist isPySpace).mem h
  rw [List.mem_reverse] at h2
  exact (List.dropWhile_sublist isPySpace).mem h2

theorem matchHead_none_of_alpha {w : Char} {ws l : List Char} (hw : w.isAlpha = true)
    (h : ∀ c, l.head? = some c → c.isAlpha = false) :
    matchHead (w :: ws) l = none := by
  match l with
  | [] => rfl
  | c :: cs =>
    rw [matchHead, if_neg]
    intro hwc
    subst hwc
    rw [h w rfl] at hw
    cases hw

theorem subWordAux_id {w : Char} {ws : List Char} (rep : List Char) (hw : w.isAlpha = true) :
    ∀ (fuel : ℕ) (prev : Option Char) (l : List Char), (∀ c ∈ l, c.isAlpha = false) →
      subWordAux (w :: ws) rep fuel prev l = l := by
  intro fuel
  induction fuel with
  | zero => intro prev l h; rfl
  | succ n ih =>
    intro prev l h
    match l with
    | [] => rfl
    | c :: cs =>
      have hm : matchHead (w :: ws) (c :: cs) = none :=
        matchHead_none_of_alpha hw
          (fun d hd => by simp only [List.head?_cons, Option.some_inj] at hd; subst hd
                          exact h c (List.mem_cons_self c cs))
      have hcs : ∀ d ∈ cs, d.isAlpha = false := fun d hd => h d (List.mem_cons_of_mem c hd)
      simp only [subWordAux, hm]
      rw [ih (some c) cs hcs]
      split <;> rfl

theorem subWord_id {w : Char} {ws : List Char} (rep l : List Char) (hw : w.isAlpha = true)
    (h : ∀ c ∈ l, c.isAlpha = false) : subWord (w :: ws) rep l = l :=
  subWordAux_id rep hw _ none l h

theorem foldl_subWord_id (ps : List (String × String)) (l : List Char)
    (hps : ∀ p ∈ ps, ∃ w ws, p.1.data = w :: ws ∧ w.isAlpha = true)
    (h : ∀ c ∈ l, c.isAlpha = false) :
    ps.foldl (fun t p => subWord p.1.data p.2.data t) l = l := by
  induction ps with
  | nil => rfl
  | cons p ps ih =>
    rw [List.foldl_cons]
    obtain ⟨w, ws, hdata, hw⟩ := hps p (List.mem_cons_self p ps)
    rw [hdata, subWord_id _ _ hw h]
    exact ih (fun q hq => hps q (List.mem_cons_of_mem p hq))

theorem strReplaceAux_id {w : Char} {ws : List Char} (rep : List Char) (hw : w.isAlpha = true) :
    ∀ (fuel : ℕ) (l : List Char), (∀ c ∈ l, c.isAlpha = false) →
      strReplaceAux (w :: ws) rep fuel l = l := by
  intro fuel
  induction fuel with
  | zero => intro l h; rfl
  | succ n ih =>
    intro l h
    match l with
    | [] => rfl
    | c :: cs =>
      have hm : matchHead (w :: ws) (c :: cs) = none :=
        matchHead_none_of_alpha hw
          (fun d hd => by simp only [List.head?_cons, Option.some_inj] at hd; subst hd
                          exact h c (List.mem_cons_self c cs))
      simp only [strReplaceAux, hm]
      rw [ih cs (fun d hd => h d (List.mem_cons_of_mem c hd))]

theorem foldl_strReplace_id (ps : List (String × String)) (l : List Char)
    (hps : ∀ p ∈ ps, ∃ w ws, p.1.data = w :: ws ∧ w.isAlpha = true)
    (h : ∀ c ∈ l, c.isAlpha = false) :
    ps.foldl (fun t p => strReplace p.1.data p.2.data t) l = l := by
  induction ps with
  | nil => rfl
  | cons p ps ih =>
    rw [List.foldl_cons]
    obtain ⟨w, ws, hdata, hw⟩ := hps p (List.mem_cons_self p ps)
    rw [hdata, strReplace, strReplaceAux_id _ hw _ _ h]
    exact ih (fun q hq => hps q (List.mem_cons_of_mem p hq))

theorem tryXMatch_none (l : List Char) (h : ∀ c ∈ l, c ≠ 'x') : tryXMatch l = none := by
  match l with
  | [] => rfl
  | d1 :: rest =>
    rw [tryXMatch]
    by_cases hd : d1.isDigit = true
    · rw [if_pos hd]
      cases hdw : rest.dropWhile isPySpace with
      | nil => rfl
      | cons c rest2 =>
        have hc : c ∈ rest := (List.dropWhile_sublist isPySpace).mem (by rw [hdw]; simp)
        have hcx : c ≠ 'x' := h c (List.mem_cons_of_mem d1 hc)
        simp [hcx]
    · rw [if_neg hd]

theorem xCollapseAux_id : ∀ (fuel : ℕ) (l : List Char), (∀ c ∈ l, c ≠ 'x') →
    xCollapseAux fuel l = l := by
  intro fuel
  induction fuel with
  | zero => intro l h; rfl
  | succ n ih =>
    intro l h
    match l with
    | [] => rfl
    | c :: cs =>
      rw [xCollapseAux, tryXMatch_none (c :: cs) h]
      rw [ih cs (fun d hd => h d (List.mem_cons_of_mem c hd))]

theorem num_words_heads : ∀ p ∈ NUM_WORDS, ∃ w ws, p.1.data = w :: ws ∧ w.isAlpha = true := by
  intro p hp
  fin_cases hp <;> exact ⟨_, _, rfl, by decide⟩

theorem op_words_heads : ∀ p ∈ OP_WORDS, ∃ w ws, p.1.data = w :: ws ∧ w.isAlpha = true := by
  intro p hp
  fin_cases hp <;> exact ⟨_, _, rfl, by decide⟩

theorem map_toLower_id (l : List Char) (h : ∀ c ∈ l, c.toLower = c) :
    l.map Char.toLower = l := by
  induction l with
  | nil => rfl
  | cons c cs ih =>
    rw [List.map_cons, h c (List.mem_cons_self c cs),
      ih (fun d hd => h d (List.mem_cons_of_mem c hd))]

/-- C8: the math-path normalization (lowercasing, number-word
substitution, operator-word substitution, infix-`x` collapse, deletion of
characters outside digits, `+ - * / .` and space, and the final
`.strip()`) is idempotent: its output consists only of kept characters, on
which every stage is the identity. -/
theorem mathNormalize_idempotent (x : String) :
    mathNormalize (mathNormalize x) = mathNormalize x := by
  set y := mathNormalize x with hy
  have hdata : y.data =
      pyStripL (cleanup (words_to_operators (words_to_numbers (pyLower x))).data) := by
    rw [hy, mathNormalize_data]
  have hmem : ∀ c ∈ y.data, cleanupKeep c = true := by
    intro c hc
    rw [hdata] at hc
    exact List.of_mem_filter (mem_pyStripL hc)
  have hprops := fun c hc => allowed_props c (mem_allowed c (hmem c hc))
  have h1 : pyLower y = y := by
    unfold pyLower
    rw [map_toLower_id y.data (fun c hc => (hprops c hc).1)]
  have h2 : words_to_numbers y = y := by
    unfold words_to_numbers
    rw [foldl_subWord_id NUM_WORDS y.data num_words_heads (fun c hc => (hprops c hc).2.1)]
  have hxc : xCollapse y.data = y.data := by
    rw [xCollapse]
    exact xCollapseAux_id _ y.data (fun c hc => (hprops c hc).2.2)
  have h3 : words_to_operators y = y := by
    unfold words_to_operators
    rw [hxc, foldl_strReplace_id OP_WORDS y.data op_words_heads
      (fun c hc => (hprops c hc).2.1)]
  have h4 : cleanup y.data = y.data := List.filter_eq_self.mpr hmem
  have h5 : pyStripL y.data = y.data := by
    rw [hdata]
    exact pyStripL_idem _
  rw [mathNormalize, h1, mathClean, h2, h3, h4, h5]


end Voicebot
